import Mathlib

/-!
Shallow embedding of the wave1d program (wave1d.cpp, fileInteraction.cpp,
wave1d.h): a one-dimensional damped wave equation solver driven by a
parameter file.  C++ `double` values are modelled as exact rationals `ℚ`;
`size_t` values as `ℕ`, with the wrap-around of `size_t` subtraction made
explicit where the source relies on it.  The output stream is modelled as a
list of abstract lines.
-/

/-- Input parameters of the simulation, read from the parameter file in the
order `c tau x1 x2 runtime dx outtime outfilename` (wave1d.cpp lines 51-58). -/
structure Parameters where
  c : ℚ
  tau : ℚ
  x1 : ℚ
  x2 : ℚ
  runtime : ℚ
  dx : ℚ
  outtime : ℚ
  outfilename : String
deriving DecidableEq, Repr

/-- Input sanity checking of wave1d.cpp lines 67-86: returns the first
diagnostic message for an out-of-range parameter, or `none` when the
parameters pass every check. -/
def checkInput (p : Parameters) : Option String :=
  if p.c ≤ 0 then some "wave speed c must be postive."
  else if p.tau ≤ 0 then some "damping time tau must be positive or zero"
  else if p.x1 ≥ p.x2 then some "x1 must be less that x2."
  else if p.dx < 0 then some "dx must be postive."
  else if p.dx > p.x2 - p.x1 then some "dx too large for domain."
  else if p.runtime < 0 then some "runtime must be positive."
  else if p.outtime < 0 then some "outtime must be positive."
  else if p.outfilename.length = 0 then some "no output filename given."
  else none

/-- The boolean `correctinput` of wave1d.cpp line 67/85: true exactly when no
check fires. -/
def correctinput (p : Parameters) : Bool :=
  (checkInput p).isNone

/-- Truncation of a rational toward zero, then clamped to `ℕ`: the model of
`static_cast<size_t>` applied to a nonnegative `double`
(wave1d.cpp lines 93, 95, 96). -/
def truncToSize (q : ℚ) : ℕ :=
  (q.num.tdiv (q.den : ℤ)).toNat

/-- Derived parameters of the run (the four fields of `Parameters` computed
at wave1d.cpp lines 93-96). -/
structure DerivedParameters where
  ngrid : ℕ
  dt : ℚ
  nsteps : ℕ
  nper : ℕ
deriving DecidableEq, Repr

/-- Derivation of wave1d.cpp lines 93-96: `ngrid` truncates `(x2-x1)/dx`,
`dt = 0.5*dx/c`, `nsteps` truncates `runtime/dt`, `nper` truncates
`outtime/dt`. -/
def deriveParameters (p : Parameters) : DerivedParameters :=
  let ngrid := truncToSize ((p.x2 - p.x1) / p.dx)
  let dt := 0.5 * p.dx / p.c
  { ngrid := ngrid
    dt := dt
    nsteps := truncToSize (p.runtime / dt)
    nper := truncToSize (p.outtime / dt) }

/-- Array read `l[i]`; out-of-range reads return the default value `0`
(the C++ source never performs an out-of-range read on the executions the
claims quantify over). -/
def getQ (l : List ℚ) (i : ℕ) : ℚ :=
  l.getD i 0

/-- The coordinate array of wave1d.cpp lines 122-124:
`x[i] = x1 + (i*(x2-x1))/(ngrid-1)` for `i = 0 .. ngrid-1`. -/
def initializeX (p : Parameters) (ngrid : ℕ) : List ℚ :=
  (List.range ngrid).map
    (fun i : ℕ => p.x1 + ((i : ℚ) * (p.x2 - p.x1)) / ((ngrid - 1 : ℕ) : ℚ))

/-- The initial triangular profile of wave1d.cpp lines 126-137: zero where
`x[i] < xstart` or `x[i] > xfinish`, otherwise
`0.25 - |x[i]-xmid|/(x2-x1)`. -/
def initializeRho (p : Parameters) (x : List ℚ) : List ℚ :=
  let xstart := 0.25 * (p.x2 - p.x1) + p.x1
  let xmid := 0.5 * (p.x2 + p.x1)
  let xfinish := 0.75 * (p.x2 - p.x1) + p.x1
  x.map (fun xi =>
    if xi < xstart ∨ xi > xfinish then 0
    else 0.25 - |xi - xmid| / (p.x2 - p.x1))

/-- Modulus of `size_t` arithmetic (64-bit). -/
def sizeTMod : ℕ := 2 ^ 64

/-- Upper bound `ngrid - 2` of the interior loop at wave1d.cpp line 153,
computed in `size_t` arithmetic (so it wraps around for `ngrid < 2`). -/
def interiorHi (ngrid : ℕ) : ℕ :=
  (ngrid + sizeTMod - 2) % sizeTMod

/-- Index list traversed by the interior loop `for (i = 1; i <= ngrid-2; i++)`
at wave1d.cpp line 153. -/
def interiorIndices (ngrid : ℕ) : List ℕ :=
  (List.range (interiorHi ngrid + 1)).drop 1

/-- Indices of the three buffers touched during one time step: the boundary
clamp writes `rho[0]` and `rho[ngrid-1]` (wave1d.cpp lines 149-150), and each
interior iteration `i` reads `rho[i+1]`, `rho[i-1]`, `rho[i]`,
`rho_prev[i]` and writes `rho_next[i]` (lines 154-156). -/
def accessedIndices (ngrid : ℕ) : List ℕ :=
  0 :: (ngrid - 1) ::
    (interiorIndices ngrid).flatMap (fun i => [i + 1, i - 1, i])

/-- The three field buffers live at any point of the time loop:
`rho_prev` (time t-dt), `rho` (time t) and `rho_next` (the scratch buffer
the next field is written into). -/
structure SimState where
  rho_prev : List ℚ
  rho : List ℚ
  rho_next : List ℚ
deriving DecidableEq, Repr

/-- Dirichlet boundary clamp of wave1d.cpp lines 149-150: `rho[0] = 0.0;`
and `rho[ngrid-1] = 0.0;`, applied in place to the current field. -/
def clampBoundary (ngrid : ℕ) (rho : List ℚ) : List ℚ :=
  (rho.set 0 0).set (ngrid - 1) 0

/-- Interior update of wave1d.cpp lines 153-157, writing into the scratch
buffer `rho_next`: entries outside the loop range keep the scratch buffer's
previous contents. -/
def updateInterior (p : Parameters) (dt : ℚ) (ngrid : ℕ)
    (rho rho_prev rho_next : List ℚ) : List ℚ :=
  (List.range ngrid).map (fun i =>
    if 1 ≤ i ∧ i ≤ interiorHi ngrid then
      let laplacian := (p.c / p.dx) ^ 2 * (getQ rho (i + 1) + getQ rho (i - 1) - 2 * getQ rho i)
      let friction := (getQ rho i - getQ rho_prev i) / p.tau
      2 * getQ rho i - getQ rho_prev i + dt * (laplacian * dt - friction)
    else getQ rho_next i)

/-- One iteration of the time loop, wave1d.cpp lines 148-161: clamp the
boundary of the current field, evolve the interior into the scratch buffer,
then rotate buffers by the two swaps
`swap(rho_prev, rho); swap(rho, rho_next);`. -/
def timeStep (p : Parameters) (dt : ℚ) (ngrid : ℕ) (st : SimState) : SimState :=
  let rhoC := clampBoundary ngrid st.rho
  let next := updateInterior p dt ngrid rhoC st.rho_prev st.rho_next
  { rho_prev := rhoC, rho := next, rho_next := st.rho_prev }

/-- State after allocation and initialization, wave1d.cpp lines 116-137:
`rho` and `rho_prev` both hold the triangular profile, the scratch buffer is
the zero-initialized allocation from `make_unique`. -/
def initState (p : Parameters) : SimState :=
  let d := deriveParameters p
  let x := initializeX p d.ngrid
  let rho0 := initializeRho p x
  { rho_prev := rho0, rho := rho0, rho_next := List.replicate d.ngrid 0 }

/-- Simulation state after `k` completed time steps. -/
def simulate (p : Parameters) : ℕ → SimState
  | 0 => initState p
  | k + 1 => timeStep p (deriveParameters p).dt (deriveParameters p).ngrid (simulate p k)

/-- One line of the output file, abstracting the numeric rendering: a
`#`-prefixed parameter line of the preamble (carrying its literal label), a
blank line (a bare `"\n"` written after a line), a snapshot time-comment line
(carrying the literal text written before the time value), or one
`<x> <rho>` data line. -/
inductive OutLine where
  | paramLine (label : String) : OutLine
  | blankLine : OutLine
  | timeHeader (mark : String) (t : ℚ) : OutLine
  | dataLine (x rho : ℚ) : OutLine
deriving DecidableEq, Repr

/-- Labels of the twelve parameter-report lines written at wave1d.cpp
lines 102-113. -/
def preambleLabels : List String :=
  ["#c        ", "#tau      ", "#x1       ", "#x2       ",
   "#runtime  ", "#dx       ", "#outtime  ", "#filename ",
   "#ngrid (derived) ", "#dt    (derived) ", "#nsteps(derived) ",
   "#nper  (derived) "]

/-- The preamble block of the output file (wave1d.cpp lines 102-113). -/
def preambleLines : List OutLine :=
  preambleLabels.map OutLine.paramLine

/-- One snapshot: the time-comment line followed by `ngrid` lines of
`x[i] rho[i]` (wave1d.cpp lines 140-143 and 165-168). -/
def snapshotBlock (mark : String) (t : ℚ) (x rho : List ℚ) (ngrid : ℕ) :
    List OutLine :=
  OutLine.timeHeader mark t ::
    (List.range ngrid).map (fun i => OutLine.dataLine (getQ x i) (getQ rho i))

/-- Output produced by the time loop of wave1d.cpp lines 146-170, in the
fuel/step-counter form: `k` iterations remain and `s` iterations are done.
After each step, if `(s+1) % nper == 0` a blank-blank-header-data block is
appended (the source writes `"\n\n# t = "`, i.e. two blank lines then the
comment line). -/
def loopOutput (p : Parameters) (d : DerivedParameters) (x : List ℚ) :
    ℕ → ℕ → SimState → List OutLine
  | 0, _, _ => []
  | k + 1, s, st =>
    let st2 := timeStep p d.dt d.ngrid st
    (if (s + 1) % d.nper = 0 then
      OutLine.blankLine :: OutLine.blankLine ::
        snapshotBlock "# t = " (((s : ℚ) + 1) * d.dt) x st2.rho d.ngrid
    else []) ++ loopOutput p d x k (s + 1) st2

/-- The whole output file of a run (wave1d.cpp lines 102-170): the twelve
preamble lines, then one blank line and the initial snapshot headed by the
literal `"#t = "` (line 140 writes `"\n#t = " << 0.0`), then the loop
output. -/
def simOutput (p : Parameters) : List OutLine :=
  let d := deriveParameters p
  let x := initializeX p d.ngrid
  let rho0 := initializeRho p x
  preambleLines ++
    OutLine.blankLine :: snapshotBlock "#t = " 0 x rho0 d.ngrid ++
    loopOutput p d x d.nsteps 0 (initState p)

/-- Outcome of `main` once the parameter file has been parsed into a
`Parameters` value: either an early exit with a status code and the
diagnostics written to `cerr` (wave1d.cpp lines 87-90 return 4 after the
specific message and the summary line), or the normal run producing the
output file. -/
inductive MainResult where
  | err (code : ℕ) (messages : List String) : MainResult
  | ok (out : List OutLine) : MainResult
deriving DecidableEq, Repr

/-- The part of `main` (wave1d.cpp lines 66-176) downstream of file parsing:
validation decides between the early `return 4` and the full run. -/
def mainRun (fileArg : String) (p : Parameters) : MainResult :=
  match checkInput p with
  | some m =>
      MainResult.err 4
        [m, "Parameter value error in file '" ++ fileArg ++ "'"]
  | none => MainResult.ok (simOutput p)

/-- Outcome of the `readFile` function of fileInteraction.cpp (lines 34-86)
downstream of parsing: either process termination via `std::exit` with the
given status and the diagnostics written to `cerr`, or the parameter set
returned to the caller. -/
inductive ReadFileResult where
  | exitWith (code : ℕ) (messages : List String) : ReadFileResult
  | ok (p : Parameters) : ReadFileResult
deriving DecidableEq, Repr

/-- The sanity-check half of `readFile` (fileInteraction.cpp lines 59-86):
the same check chain as `main`, but on validation failure the specific
diagnostic and the summary line are followed by `std::exit(0)` (line 82),
i.e. the process terminates with status 0. -/
def readFileRun (filename : String) (p : Parameters) : ReadFileResult :=
  match checkInput p with
  | some m =>
      ReadFileResult.exitWith 0
        [m, "Parameter value error in file '" ++ filename ++ "'"]
  | none => ReadFileResult.ok p

/-- Predicate selecting the snapshot time-comment lines of the output. -/
def isTimeHeader : OutLine → Bool
  | OutLine.timeHeader _ _ => true
  | _ => false

/-- Number of snapshot blocks in a line list. -/
def headerCount (l : List OutLine) : ℕ :=
  (l.filter isTimeHeader).length

/-! Helper lemmas about the embedding. -/

lemma getQ_range_map (f : ℕ → ℚ) {n i : ℕ} (h : i < n) :
    getQ ((List.range n).map f) i = f i := by
  simp [getQ, List.getD_eq_getElem?_getD, List.getElem?_map, List.getElem?_range h]

lemma getQ_map (f : ℚ → ℚ) {l : List ℚ} {i : ℕ} (h : i < l.length) :
    getQ (l.map f) i = f (getQ l i) := by
  simp [getQ, List.getD_eq_getElem?_getD, List.getElem?_map,
    List.getElem?_eq_getElem h]

lemma length_clampBoundary (n : ℕ) (l : List ℚ) :
    (clampBoundary n l).length = l.length := by
  simp [clampBoundary]

lemma length_updateInterior (p : Parameters) (dt : ℚ) (n : ℕ)
    (rho rho_prev rho_next : List ℚ) :
    (updateInterior p dt n rho rho_prev rho_next).length = n := by
  simp [updateInterior]

lemma interiorHi_eq {n : ℕ} (h2 : 2 ≤ n) (hm : n < sizeTMod) :
    interiorHi n = n - 2 := by
  unfold interiorHi
  have h : n + sizeTMod - 2 = (n - 2) + sizeTMod := by omega
  rw [h, Nat.add_mod_right, Nat.mod_eq_of_lt (by omega)]

lemma getQ_clampBoundary_left {n : ℕ} {l : List ℚ} (h2 : 2 ≤ n)
    (hl : l.length = n) : getQ (clampBoundary n l) 0 = 0 := by
  unfold clampBoundary
  rw [getQ, List.getD_eq_getElem?_getD,
    List.getElem?_set_ne (by omega : n - 1 ≠ 0),
    List.getElem?_set_self (by omega)]
  rfl

lemma getQ_clampBoundary_right {n : ℕ} {l : List ℚ} (h2 : 2 ≤ n)
    (hl : l.length = n) : getQ (clampBoundary n l) (n - 1) = 0 := by
  unfold clampBoundary
  rw [getQ, List.getD_eq_getElem?_getD, List.getElem?_set_self (by simp; omega)]
  rfl

lemma getQ_clampBoundary_interior {n : ℕ} {l : List ℚ} {i : ℕ}
    (h1 : 1 ≤ i) (hi : i ≤ n - 2) (h2 : 2 ≤ n) :
    getQ (clampBoundary n l) i = getQ l i := by
  unfold clampBoundary
  rw [getQ, getQ, List.getD_eq_getElem?_getD, List.getD_eq_getElem?_getD,
    List.getElem?_set_ne (by omega : n - 1 ≠ i),
    List.getElem?_set_ne (by omega : 0 ≠ i)]

lemma timeStep_rho_interior (p : Parameters) (dt : ℚ) (n : ℕ) (st : SimState)
    {i : ℕ} (h2 : 2 ≤ n) (hm : n < sizeTMod) (h1 : 1 ≤ i) (hi : i ≤ n - 2) :
    getQ (timeStep p dt n st).rho i =
      2 * getQ (clampBoundary n st.rho) i - getQ st.rho_prev i +
        dt * ((p.c / p.dx) ^ 2 *
            (getQ (clampBoundary n st.rho) (i + 1) +
              getQ (clampBoundary n st.rho) (i - 1) -
              2 * getQ (clampBoundary n st.rho) i) * dt -
          (getQ (clampBoundary n st.rho) i - getQ st.rho_prev i) / p.tau) := by
  have hilt : i < n := by omega
  unfold timeStep updateInterior
  rw [getQ_range_map _ hilt, if_pos ⟨h1, by rw [interiorHi_eq h2 hm]; exact hi⟩]

lemma checkInput_none_facts {p : Parameters} (h : correctinput p = true) :
    0 < p.c ∧ 0 < p.tau ∧ p.x1 < p.x2 ∧ 0 ≤ p.dx ∧ p.dx ≤ p.x2 - p.x1 ∧
      0 ≤ p.runtime ∧ 0 ≤ p.outtime ∧ p.outfilename.length ≠ 0 := by
  unfold correctinput checkInput at h
  split_ifs at h with h1 h2 h3 h4 h5 h6 h7 h8
  all_goals simp_all

lemma truncToSize_eq_floor {q : ℚ} (h : 0 ≤ q) :
    truncToSize q = Int.toNat ⌊q⌋ := by
  unfold truncToSize
  rw [Int.tdiv_eq_ediv (Rat.num_nonneg.mpr h) (Int.ofNat_nonneg q.den),
    ← Rat.floor_def]

/-- C1: on every step of the simulation and every interior index
`1 ≤ i ≤ ngrid - 2`, the new current field (the buffer the snapshot would
print) satisfies the three-level recurrence
`rho_next[i] = 2*rho[i] - rho_prev[i] + dt*(laplacian*dt - friction)` with
`laplacian = (c/dx)^2 * (rho[i+1] + rho[i-1] - 2*rho[i])` and
`friction = (rho[i] - rho_prev[i])/tau`, evaluated on the boundary-clamped
current field and the previous field of the step. -/
theorem interior_update_recurrence (p : Parameters) (k i : ℕ) (n : ℕ) (dt : ℚ)
    (hn : n = (deriveParameters p).ngrid) (hdt : dt = (deriveParameters p).dt)
    (h2 : 2 ≤ n) (hm : n < sizeTMod) (h1 : 1 ≤ i) (hi : i ≤ n - 2) :
    getQ (simulate p (k + 1)).rho i =
      2 * getQ (clampBoundary n (simulate p k).rho) i -
        getQ (simulate p k).rho_prev i +
        dt * ((p.c / p.dx) ^ 2 *
            (getQ (clampBoundary n (simulate p k).rho) (i + 1) +
              getQ (clampBoundary n (simulate p k).rho) (i - 1) -
              2 * getQ (clampBoundary n (simulate p k).rho) i) * dt -
          (getQ (clampBoundary n (simulate p k).rho) i -
            getQ (simulate p k).rho_prev i) / p.tau) := by
  have hs : simulate p (k + 1) =
      timeStep p (deriveParameters p).dt (deriveParameters p).ngrid (simulate p k) := rfl
  rw [hs, ← hn, ← hdt]
  exact timeStep_rho_interior p dt n (simulate p k) h2 hm h1 hi

/-- Concrete run exercising C1: parameters `c=1, tau=1, x1=0, x2=4,
runtime=1, dx=1, outtime=1` give `ngrid = 4`, `dt = 1/2`; the recurrence
holds at step 1, interior index 1. -/
theorem interior_update_recurrence_witness :
    (2 ≤ (4 : ℕ)) ∧ ((4 : ℕ) < sizeTMod) ∧ ((1 : ℕ) ≤ 4 - 2) ∧
    ((4 : ℕ) = (deriveParameters ⟨1, 1, 0, 4, 1, 1, 1, "o"⟩).ngrid) ∧
    getQ (simulate ⟨1, 1, 0, 4, 1, 1, 1, "o"⟩ 1).rho 1 =
      2 * getQ (clampBoundary 4 (simulate ⟨1, 1, 0, 4, 1, 1, 1, "o"⟩ 0).rho) 1 -
        getQ (simulate ⟨1, 1, 0, 4, 1, 1, 1, "o"⟩ 0).rho_prev 1 +
        (1 / 2 : ℚ) * (((1 : ℚ) / 1) ^ 2 *
            (getQ (clampBoundary 4 (simulate ⟨1, 1, 0, 4, 1, 1, 1, "o"⟩ 0).rho) (1 + 1) +
              getQ (clampBoundary 4 (simulate ⟨1, 1, 0, 4, 1, 1, 1, "o"⟩ 0).rho) (1 - 1) -
              2 * getQ (clampBoundary 4 (simulate ⟨1, 1, 0, 4, 1, 1, 1, "o"⟩ 0).rho) 1) * (1 / 2 : ℚ) -
          (getQ (clampBoundary 4 (simulate ⟨1, 1, 0, 4, 1, 1, 1, "o"⟩ 0).rho) 1 -
            getQ (simulate ⟨1, 1, 0, 4, 1, 1, 1, "o"⟩ 0).rho_prev 1) / 1) :=
  ⟨by decide, by decide, by decide, by with_unfolding_all decide,
    interior_update_recurrence ⟨1, 1, 0, 4, 1, 1, 1, "o"⟩ 0 1 4 (1 / 2)
      (by with_unfolding_all decide) (by with_unfolding_all decide)
      (by decide) (by decide) (by decide) (by decide)⟩

/-- C2: for every parameter set passing validation, the derived quantities
are `ngrid = floor((x2-x1)/dx)`, `dt = 0.5*dx/c`, `nsteps = floor(runtime/dt)`
and `nper = floor(outtime/dt)`; the size-typed quantities are obtained by
truncation toward zero (which agrees with `floor` on these nonnegative
values), and identical inputs give identical derived values. -/
theorem derived_parameters_spec (p : Parameters) (h : correctinput p = true) :
    (deriveParameters p).ngrid = Int.toNat ⌊(p.x2 - p.x1) / p.dx⌋ ∧
    (deriveParameters p).dt = 0.5 * p.dx / p.c ∧
    (deriveParameters p).nsteps =
      Int.toNat ⌊p.runtime / (deriveParameters p).dt⌋ ∧
    (deriveParameters p).nper =
      Int.toNat ⌊p.outtime / (deriveParameters p).dt⌋ ∧
    ∀ q : Parameters, q = p → deriveParameters q = deriveParameters p := by
  obtain ⟨hc, -, hx, hdx, -, hrt, hot, -⟩ := checkInput_none_facts h
  have hdt : (0 : ℚ) ≤ 0.5 * p.dx / p.c :=
    div_nonneg (mul_nonneg (by norm_num) hdx) hc.le
  refine ⟨?_, rfl, ?_, ?_, fun q hq => by rw [hq]⟩
  · exact truncToSize_eq_floor (div_nonneg (by linarith) hdx)
  · exact truncToSize_eq_floor (div_nonneg hrt hdt)
  · exact truncToSize_eq_floor (div_nonneg hot hdt)

/-- Concrete instance of C2, the end-to-end scenario of the specification:
`c=1, tau=1000, x1=0, x2=10, runtime=5, dx=1/10, outtime=1` passes
validation and derives `ngrid=100`, `dt=1/20`, `nsteps=100`, `nper=20`,
agreeing with the floor formulas. -/
theorem derived_parameters_spec_witness :
    correctinput ⟨1, 1000, 0, 10, 5, 1 / 10, 1, "out.txt"⟩ = true ∧
    ((deriveParameters ⟨1, 1000, 0, 10, 5, 1 / 10, 1, "out.txt"⟩).ngrid =
        Int.toNat ⌊((10 : ℚ) - 0) / (1 / 10)⌋ ∧
      (deriveParameters ⟨1, 1000, 0, 10, 5, 1 / 10, 1, "out.txt"⟩).dt =
        0.5 * (1 / 10) / 1 ∧
      (deriveParameters ⟨1, 1000, 0, 10, 5, 1 / 10, 1, "out.txt"⟩).nsteps =
        Int.toNat ⌊(5 : ℚ) /
          (deriveParameters ⟨1, 1000, 0, 10, 5, 1 / 10, 1, "out.txt"⟩).dt⌋ ∧
      (deriveParameters ⟨1, 1000, 0, 10, 5, 1 / 10, 1, "out.txt"⟩).nper =
        Int.toNat ⌊(1 : ℚ) /
          (deriveParameters ⟨1, 1000, 0, 10, 5, 1 / 10, 1, "out.txt"⟩).dt⌋ ∧
      ∀ q : Parameters, q = ⟨1, 1000, 0, 10, 5, 1 / 10, 1, "out.txt"⟩ →
        deriveParameters q =
          deriveParameters ⟨1, 1000, 0, 10, 5, 1 / 10, 1, "out.txt"⟩) :=
  ⟨by with_unfolding_all decide,
    derived_parameters_spec ⟨1, 1000, 0, 10, 5, 1 / 10, 1, "out.txt"⟩
      (by with_unfolding_all decide)⟩

lemma length_initializeX (p : Parameters) (n : ℕ) :
    (initializeX p n).length = n := by
  unfold initializeX
  rw [List.length_map, List.length_range]

lemma getQ_initializeX (p : Parameters) {n i : ℕ} (h : i < n) :
    getQ (initializeX p n) i =
      p.x1 + ((i : ℚ) * (p.x2 - p.x1)) / ((n - 1 : ℕ) : ℚ) := by
  unfold initializeX
  exact getQ_range_map _ h

lemma initializeX_zero (p : Parameters) {n : ℕ} (h : 0 < n) :
    getQ (initializeX p n) 0 = p.x1 := by
  rw [getQ_initializeX p h]
  simp

lemma initializeX_last (p : Parameters) {n : ℕ} (h2 : 2 ≤ n) :
    getQ (initializeX p n) (n - 1) = p.x2 := by
  rw [getQ_initializeX p (by omega)]
  have hne : ((n - 1 : ℕ) : ℚ) ≠ 0 := Nat.cast_ne_zero.mpr (by omega)
  rw [mul_comm ((n - 1 : ℕ) : ℚ) (p.x2 - p.x1), mul_div_assoc, div_self hne,
    mul_one]
  ring

lemma length_initializeRho (p : Parameters) (x : List ℚ) :
    (initializeRho p x).length = x.length := by
  unfold initializeRho
  rw [List.length_map]

lemma getQ_initializeRho (p : Parameters) {x : List ℚ} {i : ℕ}
    (h : i < x.length) :
    getQ (initializeRho p x) i =
      if getQ x i < 0.25 * (p.x2 - p.x1) + p.x1 ∨
          getQ x i > 0.75 * (p.x2 - p.x1) + p.x1 then 0
      else 0.25 - |getQ x i - 0.5 * (p.x2 + p.x1)| / (p.x2 - p.x1) := by
  unfold initializeRho
  exact getQ_map _ h

lemma getQ_replicate_zero (n i : ℕ) : getQ (List.replicate n (0 : ℚ)) i = 0 := by
  simp [getQ, List.getD_eq_getElem?_getD, List.getElem?_replicate]
  split <;> rfl

/-- Boundary-zero property of a buffer of length `n`. -/
def zeroBoundary (n : ℕ) (l : List ℚ) : Prop :=
  l.length = n ∧ getQ l 0 = 0 ∧ getQ l (n - 1) = 0

/-- Invariant carried through the time loop: all three buffers have
length `ngrid` and zero boundary entries. -/
def stateInv (n : ℕ) (st : SimState) : Prop :=
  zeroBoundary n st.rho_prev ∧ zeroBoundary n st.rho ∧ zeroBoundary n st.rho_next

lemma initializeRho_boundary (p : Parameters) (hx : p.x1 < p.x2) {n : ℕ}
    (h2 : 2 ≤ n) :
    getQ (initializeRho p (initializeX p n)) 0 = 0 ∧
      getQ (initializeRho p (initializeX p n)) (n - 1) = 0 := by
  constructor
  · have hcond : p.x1 < 0.25 * (p.x2 - p.x1) + p.x1 := by linarith
    rw [getQ_initializeRho p (by rw [length_initializeX]; omega),
      initializeX_zero p (by omega), if_pos (Or.inl hcond)]
  · have hcond : p.x2 > 0.75 * (p.x2 - p.x1) + p.x1 := by linarith
    rw [getQ_initializeRho p (by rw [length_initializeX]; omega),
      initializeX_last p h2, if_pos (Or.inr hcond)]

lemma timeStep_stateInv (p : Parameters) (dt : ℚ) {n : ℕ} {st : SimState}
    (h2 : 2 ≤ n) (hm : n < sizeTMod) (h : stateInv n st) :
    stateInv n (timeStep p dt n st) := by
  obtain ⟨hp, ⟨hcl, hc0, hc1⟩, hnx⟩ := h
  have hprev : (timeStep p dt n st).rho_prev = clampBoundary n st.rho := rfl
  have hrho : (timeStep p dt n st).rho =
      updateInterior p dt n (clampBoundary n st.rho) st.rho_prev st.rho_next := rfl
  have hnext : (timeStep p dt n st).rho_next = st.rho_prev := rfl
  refine ⟨⟨?_, ?_, ?_⟩, ⟨?_, ?_, ?_⟩, hnext ▸ hp⟩
  · rw [hprev, length_clampBoundary, hcl]
  · rw [hprev]; exact getQ_clampBoundary_left h2 hcl
  · rw [hprev]; exact getQ_clampBoundary_right h2 hcl
  · rw [hrho]; exact length_updateInterior p dt n _ _ _
  · rw [hrho]
    unfold updateInterior
    rw [getQ_range_map _ (by omega), if_neg (by omega)]
    exact hnx.2.1
  · rw [hrho]
    unfold updateInterior
    rw [getQ_range_map _ (by omega),
      if_neg (by rw [interiorHi_eq h2 hm]; omega)]
    exact hnx.2.2

lemma simulate_stateInv (p : Parameters) (hv : correctinput p = true)
    (h2 : 2 ≤ (deriveParameters p).ngrid)
    (hm : (deriveParameters p).ngrid < sizeTMod) (k : ℕ) :
    stateInv (deriveParameters p).ngrid (simulate p k) := by
  induction k with
  | zero =>
      obtain ⟨-, -, hx, -⟩ := checkInput_none_facts hv
      obtain ⟨hb0, hb1⟩ := initializeRho_boundary p hx h2
      have hl : (initializeRho p (initializeX p (deriveParameters p).ngrid)).length =
          (deriveParameters p).ngrid := by
        rw [length_initializeRho, length_initializeX]
      exact ⟨⟨hl, hb0, hb1⟩, ⟨hl, hb0, hb1⟩,
        by simp [simulate, initState], getQ_replicate_zero _ _,
        getQ_replicate_zero _ _⟩
  | succ k ih => exact timeStep_stateInv p _ h2 hm ih

/-- C3: for every validated parameter set with `ngrid ≥ 2`, after any number
of completed time steps (including zero) the current field buffer — the one a
snapshot would print, i.e. the buffer returned as the next field by the last
step — has `rho[0] = 0` and `rho[ngrid-1] = 0` exactly. -/
theorem boundary_zero_invariant (p : Parameters) (k : ℕ)
    (hv : correctinput p = true) (h2 : 2 ≤ (deriveParameters p).ngrid)
    (hm : (deriveParameters p).ngrid < sizeTMod) :
    getQ (simulate p k).rho 0 = 0 ∧
      getQ (simulate p k).rho ((deriveParameters p).ngrid - 1) = 0 := by
  obtain ⟨-, hrho, -⟩ := simulate_stateInv p hv h2 hm k
  exact ⟨hrho.2.1, hrho.2.2⟩

/-- Concrete instance of C3: with `c=1, tau=1, x1=0, x2=4, runtime=1, dx=1,
outtime=1` (`ngrid = 4`), after one completed step the current field has zero
boundary entries. -/
theorem boundary_zero_invariant_witness :
    correctinput ⟨1, 1, 0, 4, 1, 1, 1, "o"⟩ = true ∧
    2 ≤ (deriveParameters ⟨1, 1, 0, 4, 1, 1, 1, "o"⟩).ngrid ∧
    (getQ (simulate ⟨1, 1, 0, 4, 1, 1, 1, "o"⟩ 1).rho 0 = 0 ∧
      getQ (simulate ⟨1, 1, 0, 4, 1, 1, 1, "o"⟩ 1).rho
        ((deriveParameters ⟨1, 1, 0, 4, 1, 1, 1, "o"⟩).ngrid - 1) = 0) :=
  ⟨by with_unfolding_all decide, by with_unfolding_all decide,
    boundary_zero_invariant ⟨1, 1, 0, 4, 1, 1, 1, "o"⟩ 1
      (by with_unfolding_all decide) (by with_unfolding_all decide)
      (by with_unfolding_all decide)⟩

lemma checkInput_msg_nonempty {p : Parameters} {m : String}
    (h : checkInput p = some m) : m ≠ "" := by
  unfold checkInput at h
  split_ifs at h
  all_goals injection h with h
  all_goals subst h
  all_goals decide

/-- C4 fails on the code it cites: for every out-of-range parameter set,
the inline validation of `main` (wave1d.cpp lines 87-90) does return the
nonzero status 4 after writing the specific diagnostic and the summary line,
but the validation-failure branch of `readFile` (fileInteraction.cpp
line 82) terminates the process via `std::exit(0)` — exit status zero —
after writing the same two diagnostics, so the claimed nonzero exit status
does not hold on that path (the function's own read-failure branch at
line 57 uses `std::exit(1)`, so the zero status is a slip). In both
variants the core never runs. -/
theorem invalid_params_exit_status (fileArg : String) (p : Parameters)
    (h : correctinput p = false) :
    (∃ m, readFileRun fileArg p =
        ReadFileResult.exitWith 0
          [m, "Parameter value error in file '" ++ fileArg ++ "'"] ∧
        m ≠ "") ∧
    (∀ q, readFileRun fileArg p ≠ ReadFileResult.ok q) ∧
    (∃ m, mainRun fileArg p =
        MainResult.err 4 [m, "Parameter value error in file '" ++ fileArg ++ "'"] ∧
        m ≠ "") ∧
    (∀ out, mainRun fileArg p ≠ MainResult.ok out) ∧ (4 : ℕ) ≠ 0 := by
  unfold correctinput at h
  cases hc : checkInput p with
  | none => rw [hc] at h; simp at h
  | some m =>
      have hm := checkInput_msg_nonempty hc
      refine ⟨⟨m, ?_, hm⟩, ?_, ⟨m, ?_, hm⟩, ?_, by decide⟩
      · unfold readFileRun
        rw [hc]
      · intro q
        unfold readFileRun
        rw [hc]
        simp
      · unfold mainRun
        rw [hc]
      · intro out
        unfold mainRun
        rw [hc]
        simp

/-- Concrete instance of C4's divergence: `c = -1` fails validation; the
`readFile` variant terminates with exit status 0 while `main` returns the
nonzero status 4, and the core does not run in either variant. -/
theorem invalid_params_exit_status_witness :
    correctinput ⟨-1, 1, 0, 1, 1, 1, 1, "o"⟩ = false ∧
    ((∃ m, readFileRun "bad.txt" ⟨-1, 1, 0, 1, 1, 1, 1, "o"⟩ =
        ReadFileResult.exitWith 0
          [m, "Parameter value error in file '" ++ "bad.txt" ++ "'"] ∧
        m ≠ "") ∧
      (∀ q, readFileRun "bad.txt" ⟨-1, 1, 0, 1, 1, 1, 1, "o"⟩ ≠
        ReadFileResult.ok q) ∧
      (∃ m, mainRun "bad.txt" ⟨-1, 1, 0, 1, 1, 1, 1, "o"⟩ =
        MainResult.err 4
          [m, "Parameter value error in file '" ++ "bad.txt" ++ "'"] ∧
        m ≠ "") ∧
      (∀ out, mainRun "bad.txt" ⟨-1, 1, 0, 1, 1, 1, 1, "o"⟩ ≠
        MainResult.ok out) ∧ (4 : ℕ) ≠ 0) :=
  ⟨by with_unfolding_all decide,
    invalid_params_exit_status "bad.txt" ⟨-1, 1, 0, 1, 1, 1, 1, "o"⟩
      (by with_unfolding_all decide)⟩

/-- C5 fails on the code: the check at wave1d.cpp line 74 is `dx < 0`, so
`dx = 0` (with otherwise valid parameters) passes the whole validation even
though the diagnostic of that very branch reads `dx must be postive.` and the
specification requires `0 < dx`; the run then reaches the derivation, which
divides by `dx = 0`. -/
theorem dx_zero_passes_validation :
    correctinput ⟨1, 1, 0, 1, 1, 0, 1, "o"⟩ = true ∧
    checkInput ⟨1, 1, 0, 1, 1, 0, 1, "o"⟩ = none ∧
    (⟨1, 1, 0, 1, 1, 0, 1, "o"⟩ : Parameters).dx = 0 := by
  refine ⟨by with_unfolding_all decide, by with_unfolding_all decide, rfl⟩

/-- C10 fails as stated: `outtime = 0` (accepted by validation, wave1d.cpp
line 80 only rejects negative values) derives `nper = 0` while
`nsteps = 4 ≥ 1`, so the cadence test `(s+1) % nper` at line 164 is executed
with a zero divisor. -/
theorem nper_zero_reachable :
    correctinput ⟨1, 1, 0, 1, 1, 1 / 2, 0, "o"⟩ = true ∧
    (deriveParameters ⟨1, 1, 0, 1, 1, 1 / 2, 0, "o"⟩).nper = 0 ∧
    1 ≤ (deriveParameters ⟨1, 1, 0, 1, 1, 1 / 2, 0, "o"⟩).nsteps := by
  refine ⟨by with_unfolding_all decide, by with_unfolding_all decide,
    by with_unfolding_all decide⟩

/-- C6: for every validated parameter set with `ngrid ≥ 2`, the coordinate
array has length `ngrid`, element `i` equals `x1 + i*(x2-x1)/(ngrid-1)`,
element `0` equals exactly `x1`, and element `ngrid-1` equals exactly `x2`.
In the embedding the array is a value constructed once and bound immutably;
no operation of the model rewrites it. -/
theorem coordinate_array_spec (p : Parameters) (n : ℕ)
    (hv : correctinput p = true) (hn : n = (deriveParameters p).ngrid)
    (h2 : 2 ≤ n) :
    (initializeX p n).length = n ∧
    (∀ i, i < n →
      getQ (initializeX p n) i = p.x1 + (i : ℚ) * (p.x2 - p.x1) / ((n : ℚ) - 1)) ∧
    getQ (initializeX p n) 0 = p.x1 ∧
    getQ (initializeX p n) (n - 1) = p.x2 := by
  refine ⟨length_initializeX p n, ?_, initializeX_zero p (by omega),
    initializeX_last p h2⟩
  intro i hi
  rw [getQ_initializeX p hi, Nat.cast_sub (by omega : 1 ≤ n), Nat.cast_one,
    mul_div_assoc]

/-- Concrete instance of C6: for `c=1, tau=1, x1=0, x2=4, runtime=1, dx=1,
outtime=1` (`ngrid = 4`) the coordinate array is `[0, 4/3, 8/3, 4]` with the
stated endpoints and interpolation values. -/
theorem coordinate_array_spec_witness :
    correctinput ⟨1, 1, 0, 4, 1, 1, 1, "o"⟩ = true ∧
    (4 : ℕ) = (deriveParameters ⟨1, 1, 0, 4, 1, 1, 1, "o"⟩).ngrid ∧
    ((initializeX ⟨1, 1, 0, 4, 1, 1, 1, "o"⟩ 4).length = 4 ∧
      (∀ i, i < 4 →
        getQ (initializeX ⟨1, 1, 0, 4, 1, 1, 1, "o"⟩ 4) i =
          (0 : ℚ) + (i : ℚ) * ((4 : ℚ) - 0) / ((4 : ℚ) - 1)) ∧
      getQ (initializeX ⟨1, 1, 0, 4, 1, 1, 1, "o"⟩ 4) 0 = 0 ∧
      getQ (initializeX ⟨1, 1, 0, 4, 1, 1, 1, "o"⟩ 4) (4 - 1) = 4) :=
  ⟨by with_unfolding_all decide, by with_unfolding_all decide,
    coordinate_array_spec ⟨1, 1, 0, 4, 1, 1, 1, "o"⟩ 4
      (by with_unfolding_all decide) (by with_unfolding_all decide)
      (by decide)⟩

/-- C7: for every grid point `i` of a validated run, the initial field is
exactly `0` where `x[i]` lies outside the band
`[x1 + 0.25*(x2-x1), x1 + 0.75*(x2-x1)]`, equals
`0.25 - |x[i] - xmid|/(x2-x1)` inside the band (in particular exactly `0.25`
when `x[i] = xmid` with `xmid = 0.5*(x1+x2)`), and `rho_prev` is initialized
identically to `rho`. -/
theorem initial_profile_spec (p : Parameters) (n i : ℕ)
    (hv : correctinput p = true) (hn : n = (deriveParameters p).ngrid)
    (hi : i < n) :
    ((getQ (initializeX p n) i < p.x1 + 0.25 * (p.x2 - p.x1) ∨
        getQ (initializeX p n) i > p.x1 + 0.75 * (p.x2 - p.x1)) →
      getQ (initializeRho p (initializeX p n)) i = 0) ∧
    ((p.x1 + 0.25 * (p.x2 - p.x1) ≤ getQ (initializeX p n) i ∧
        getQ (initializeX p n) i ≤ p.x1 + 0.75 * (p.x2 - p.x1)) →
      getQ (initializeRho p (initializeX p n)) i =
        0.25 - |getQ (initializeX p n) i - 0.5 * (p.x1 + p.x2)| / (p.x2 - p.x1)) ∧
    (getQ (initializeX p n) i = 0.5 * (p.x1 + p.x2) →
      getQ (initializeRho p (initializeX p n)) i = 0.25) ∧
    (initState p).rho_prev = (initState p).rho := by
  obtain ⟨-, -, hx, -⟩ := checkInput_none_facts hv
  have hlen : i < (initializeX p n).length := by rw [length_initializeX]; exact hi
  have hrw := getQ_initializeRho p (x := initializeX p n) (i := i) hlen
  refine ⟨?_, ?_, ?_, rfl⟩
  · intro hout
    rw [hrw, if_pos]
    rcases hout with h | h
    · exact Or.inl (by linarith)
    · exact Or.inr (by linarith)
  · intro hin
    rw [hrw, if_neg (by push_neg; constructor <;> [linarith; linarith]),
      mul_comm (0.5 : ℚ) (p.x2 + p.x1)]
    ring_nf
  · intro hmid
    have hin1 : p.x1 + 0.25 * (p.x2 - p.x1) ≤ getQ (initializeX p n) i := by
      rw [hmid]; linarith
    have hin2 : getQ (initializeX p n) i ≤ p.x1 + 0.75 * (p.x2 - p.x1) := by
      rw [hmid]; linarith
    rw [hrw, if_neg (by push_neg; constructor <;> [linarith; linarith]), hmid]
    have : (0.5 : ℚ) * (p.x2 + p.x1) - 0.5 * (p.x2 + p.x1) = 0 := by ring
    rw [show (0.5 : ℚ) * (p.x1 + p.x2) - 0.5 * (p.x2 + p.x1) = 0 by ring,
      abs_zero, zero_div, sub_zero]

/-- Concrete instance of C7: for `c=1, tau=1, x1=0, x2=4, runtime=1, dx=1,
outtime=1` (`ngrid = 4`, band `[1,3]`, midpoint `2`), grid point `1` at
`x = 4/3` satisfies the profile clauses, and `rho_prev` starts equal to
`rho`. -/
theorem initial_profile_spec_witness :
    correctinput ⟨1, 1, 0, 4, 1, 1, 1, "o"⟩ = true ∧
    (4 : ℕ) = (deriveParameters ⟨1, 1, 0, 4, 1, 1, 1, "o"⟩).ngrid ∧ (1 : ℕ) < 4 ∧
    (((getQ (initializeX ⟨1, 1, 0, 4, 1, 1, 1, "o"⟩ 4) 1 <
          (0 : ℚ) + 0.25 * ((4 : ℚ) - 0) ∨
        getQ (initializeX ⟨1, 1, 0, 4, 1, 1, 1, "o"⟩ 4) 1 >
          (0 : ℚ) + 0.75 * ((4 : ℚ) - 0)) →
      getQ (initializeRho ⟨1, 1, 0, 4, 1, 1, 1, "o"⟩
        (initializeX ⟨1, 1, 0, 4, 1, 1, 1, "o"⟩ 4)) 1 = 0) ∧
    (((0 : ℚ) + 0.25 * ((4 : ℚ) - 0) ≤
          getQ (initializeX ⟨1, 1, 0, 4, 1, 1, 1, "o"⟩ 4) 1 ∧
        getQ (initializeX ⟨1, 1, 0, 4, 1, 1, 1, "o"⟩ 4) 1 ≤
          (0 : ℚ) + 0.75 * ((4 : ℚ) - 0)) →
      getQ (initializeRho ⟨1, 1, 0, 4, 1, 1, 1, "o"⟩
          (initializeX ⟨1, 1, 0, 4, 1, 1, 1, "o"⟩ 4)) 1 =
        0.25 - |getQ (initializeX ⟨1, 1, 0, 4, 1, 1, 1, "o"⟩ 4) 1 -
            0.5 * ((0 : ℚ) + 4)| / ((4 : ℚ) - 0)) ∧
    (getQ (initializeX ⟨1, 1, 0, 4, 1, 1, 1, "o"⟩ 4) 1 = 0.5 * ((0 : ℚ) + 4) →
      getQ (initializeRho ⟨1, 1, 0, 4, 1, 1, 1, "o"⟩
        (initializeX ⟨1, 1, 0, 4, 1, 1, 1, "o"⟩ 4)) 1 = 0.25) ∧
    (initState ⟨1, 1, 0, 4, 1, 1, 1, "o"⟩).rho_prev =
      (initState ⟨1, 1, 0, 4, 1, 1, 1, "o"⟩).rho) :=
  ⟨by with_unfolding_all decide, by with_unfolding_all decide, by decide,
    initial_profile_spec ⟨1, 1, 0, 4, 1, 1, 1, "o"⟩ 4 1
      (by with_unfolding_all decide) (by with_unfolding_all decide)
      (by decide)⟩

/-- C8: when the derived `ngrid` equals exactly 2, the interior loop bound
`ngrid - 2` computed in `size_t` arithmetic is 0, so the loop `1 ..= ngrid-2`
traverses no index at all, every buffer index touched during a step (the two
boundary writes) is in range, and the step leaves the next field exactly
equal to the scratch buffer's first `ngrid` entries. -/
theorem ngrid_two_empty_interior (p : Parameters) (dt : ℚ) (st : SimState)
    (hn : (deriveParameters p).ngrid = 2) :
    interiorIndices (deriveParameters p).ngrid = [] ∧
    (accessedIndices (deriveParameters p).ngrid).all
      (fun j => j < (deriveParameters p).ngrid) = true ∧
    (timeStep p dt (deriveParameters p).ngrid st).rho =
      (List.range 2).map (fun i => getQ st.rho_next i) := by
  have hhi : interiorHi 2 = 0 := by
    unfold interiorHi sizeTMod
    norm_num
  rw [hn]
  refine ⟨?_, ?_, ?_⟩
  · unfold interiorIndices
    rw [hhi]
    rfl
  · unfold accessedIndices interiorIndices
    rw [hhi]
    rfl
  · show updateInterior p dt 2 _ _ _ = _
    unfold updateInterior
    apply List.map_congr_left
    intro i hi
    rw [if_neg]
    rw [hhi]
    omega

/-- Concrete instance of C8: parameters `c=1, tau=1, x1=0, x2=1, runtime=1,
dx=1/2, outtime=1` derive `ngrid = 2`; the interior loop is empty, all
accesses are in range, and a step copies the scratch buffer into the current
field. -/
theorem ngrid_two_empty_interior_witness :
    (deriveParameters ⟨1, 1, 0, 1, 1, 1 / 2, 1, "o"⟩).ngrid = 2 ∧
    (interiorIndices (deriveParameters ⟨1, 1, 0, 1, 1, 1 / 2, 1, "o"⟩).ngrid = [] ∧
      (accessedIndices (deriveParameters ⟨1, 1, 0, 1, 1, 1 / 2, 1, "o"⟩).ngrid).all
        (fun j => j < (deriveParameters ⟨1, 1, 0, 1, 1, 1 / 2, 1, "o"⟩).ngrid) = true ∧
      (timeStep ⟨1, 1, 0, 1, 1, 1 / 2, 1, "o"⟩ (1 / 4)
          (deriveParameters ⟨1, 1, 0, 1, 1, 1 / 2, 1, "o"⟩).ngrid
          ⟨[1, 2], [3, 4], [5, 6]⟩).rho =
        (List.range 2).map (fun i => getQ (⟨[1, 2], [3, 4], [5, 6]⟩ : SimState).rho_next i)) :=
  ⟨by with_unfolding_all decide,
    ngrid_two_empty_interior ⟨1, 1, 0, 1, 1, 1 / 2, 1, "o"⟩ (1 / 4)
      ⟨[1, 2], [3, 4], [5, 6]⟩ (by with_unfolding_all decide)⟩

lemma headerCount_append (a b : List OutLine) :
    headerCount (a ++ b) = headerCount a + headerCount b := by
  simp [headerCount, List.filter_append]

lemma headerCount_cons_blank (l : List OutLine) :
    headerCount (OutLine.blankLine :: l) = headerCount l := by
  simp [headerCount, List.filter_cons, isTimeHeader]

lemma headerCount_snapshotBlock (mark : String) (t : ℚ) (x rho : List ℚ)
    (n : ℕ) : headerCount (snapshotBlock mark t x rho n) = 1 := by
  simp [headerCount, snapshotBlock, List.filter_cons, isTimeHeader,
    List.filter_map]

lemma length_snapshotBlock (mark : String) (t : ℚ) (x rho : List ℚ) (n : ℕ) :
    (snapshotBlock mark t x rho n).length = n + 1 := by
  simp [snapshotBlock]

/-- Number of snapshot emissions during `k` loop iterations starting after
`s` completed iterations: one for each iteration whose 1-based index is a
multiple of `nper` (the cadence test of wave1d.cpp line 164). -/
def cadenceCount (nper : ℕ) : ℕ → ℕ → ℕ
  | 0, _ => 0
  | k + 1, s => (if (s + 1) % nper = 0 then 1 else 0) + cadenceCount nper k (s + 1)

lemma headerCount_loopOutput (p : Parameters) (d : DerivedParameters)
    (x : List ℚ) : ∀ (k s : ℕ) (st : SimState),
    headerCount (loopOutput p d x k s st) = cadenceCount d.nper k s := by
  intro k
  induction k with
  | zero => intro s st; rfl
  | succ k ih =>
      intro s st
      show headerCount ((if (s + 1) % d.nper = 0 then
          OutLine.blankLine :: OutLine.blankLine ::
            snapshotBlock "# t = " (((s : ℚ) + 1) * d.dt) x
              (timeStep p d.dt d.ngrid st).rho d.ngrid
        else []) ++ loopOutput p d x k (s + 1) (timeStep p d.dt d.ngrid st)) = _
      rw [headerCount_append, ih (s + 1) (timeStep p d.dt d.ngrid st)]
      show _ = (if (s + 1) % d.nper = 0 then 1 else 0) + cadenceCount d.nper k (s + 1)
      by_cases hc : (s + 1) % d.nper = 0
      · rw [if_pos hc, if_pos hc, headerCount_cons_blank, headerCount_cons_blank,
          headerCount_snapshotBlock]
      · rw [if_neg hc, if_neg hc]
        rfl

lemma cadenceCount_eq_div (m : ℕ) : ∀ (k s : ℕ),
    cadenceCount m k s = (s + k) / m - s / m := by
  intro k
  induction k with
  | zero => intro s; simp [cadenceCount]
  | succ k ih =>
      intro s
      have hstep : (s + 1) / m = s / m + if m ∣ s + 1 then 1 else 0 :=
        Nat.succ_div s m
      have hmono : (s + 1) / m ≤ (s + 1 + k) / m :=
        Nat.div_le_div_right (by omega)
      have hiff : ((s + 1) % m = 0) ↔ (m ∣ s + 1) :=
        Nat.dvd_iff_mod_eq_zero.symm
      have hite : (if (s + 1) % m = 0 then (1 : ℕ) else 0) =
          if m ∣ s + 1 then 1 else 0 := if_congr hiff rfl rfl
      show (if (s + 1) % m = 0 then 1 else 0) + cadenceCount m k (s + 1) = _
      rw [ih (s + 1), hite, show s + (k + 1) = s + 1 + k from by omega]
      by_cases hd : m ∣ s + 1
      · rw [if_pos hd]
        rw [if_pos hd] at hstep
        omega
      · rw [if_neg hd]
        rw [if_neg hd] at hstep
        omega

/-- Predicate selecting the `<x> <rho>` data lines of the output. -/
def isDataLine : OutLine → Bool
  | OutLine.dataLine _ _ => true
  | _ => false

/-- Number of data lines in a line list. -/
def dataCount (l : List OutLine) : ℕ :=
  (l.filter isDataLine).length

/-- Check that every snapshot time-comment line of a line list carries the
periodic-block text `"# t = "`. -/
def headerMarksOK (l : List OutLine) : Bool :=
  l.all (fun o =>
    match o with
    | OutLine.timeHeader mark _ => mark == "# t = "
    | _ => true)

lemma dataCount_append (a b : List OutLine) :
    dataCount (a ++ b) = dataCount a + dataCount b := by
  simp [dataCount, List.filter_append]

lemma dataCount_cons_blank (l : List OutLine) :
    dataCount (OutLine.blankLine :: l) = dataCount l := by
  simp [dataCount, List.filter_cons, isDataLine]

lemma dataCount_snapshotBlock (mark : String) (t : ℚ) (x rho : List ℚ)
    (n : ℕ) : dataCount (snapshotBlock mark t x rho n) = n := by
  rw [dataCount, snapshotBlock, List.filter_cons]
  have hf : ∀ i : ℕ,
      isDataLine (OutLine.dataLine (getQ x i) (getQ rho i)) = true := by
    intro i
    rfl
  rw [show isDataLine (OutLine.timeHeader mark t) = false from rfl]
  simp only [Bool.false_eq_true, if_false]
  rw [List.filter_map, List.length_map]
  show (List.filter
    (fun a : ℕ => isDataLine (OutLine.dataLine (getQ x a) (getQ rho a)))
    (List.range n)).length = n
  rw [List.filter_congr (fun a _ => hf a), List.filter_length_eq_length.mpr
    (fun a _ => rfl), List.length_range]

lemma dataCount_loopOutput (p : Parameters) (d : DerivedParameters)
    (x : List ℚ) : ∀ (k s : ℕ) (st : SimState),
    dataCount (loopOutput p d x k s st) = cadenceCount d.nper k s * d.ngrid := by
  intro k
  induction k with
  | zero => intro s st; simp [loopOutput, dataCount, cadenceCount]
  | succ k ih =>
      intro s st
      show dataCount ((if (s + 1) % d.nper = 0 then
          OutLine.blankLine :: OutLine.blankLine ::
            snapshotBlock "# t = " (((s : ℚ) + 1) * d.dt) x
              (timeStep p d.dt d.ngrid st).rho d.ngrid
        else []) ++ loopOutput p d x k (s + 1) (timeStep p d.dt d.ngrid st)) = _
      rw [dataCount_append, ih (s + 1) (timeStep p d.dt d.ngrid st)]
      show _ = ((if (s + 1) % d.nper = 0 then 1 else 0) +
        cadenceCount d.nper k (s + 1)) * d.ngrid
      by_cases hc : (s + 1) % d.nper = 0
      · rw [if_pos hc, if_pos hc, dataCount_cons_blank, dataCount_cons_blank,
          dataCount_snapshotBlock]
        ring
      · rw [if_neg hc, if_neg hc]
        show 0 + _ = _
        ring

lemma headerMarksOK_loopOutput (p : Parameters) (d : DerivedParameters)
    (x : List ℚ) : ∀ (k s : ℕ) (st : SimState),
    headerMarksOK (loopOutput p d x k s st) = true := by
  intro k
  induction k with
  | zero => intro s st; rfl
  | succ k ih =>
      intro s st
      show headerMarksOK ((if (s + 1) % d.nper = 0 then
          OutLine.blankLine :: OutLine.blankLine ::
            snapshotBlock "# t = " (((s : ℚ) + 1) * d.dt) x
              (timeStep p d.dt d.ngrid st).rho d.ngrid
        else []) ++ loopOutput p d x k (s + 1) (timeStep p d.dt d.ngrid st)) = true
      rw [headerMarksOK, List.all_append]
      have hrest := ih (s + 1) (timeStep p d.dt d.ngrid st)
      rw [headerMarksOK] at hrest
      rw [hrest, Bool.and_true]
      by_cases hc : (s + 1) % d.nper = 0
      · rw [if_pos hc]
        simp [snapshotBlock, List.all_cons]
      · rw [if_neg hc]
        rfl

lemma simOutput_decomp (p : Parameters) :
    simOutput p = preambleLines ++
      (OutLine.blankLine :: snapshotBlock "#t = " 0
        (initializeX p (deriveParameters p).ngrid)
        (initializeRho p (initializeX p (deriveParameters p).ngrid))
        (deriveParameters p).ngrid) ++
      loopOutput p (deriveParameters p)
        (initializeX p (deriveParameters p).ngrid)
        (deriveParameters p).nsteps 0 (initState p) := by
  unfold simOutput
  rw [List.append_assoc]

/-- C9 as stated is false: in the run `c=1, tau=1, x1=0, x2=4, runtime=1,
dx=1, outtime=1`, the snapshot block for the initial condition begins at
line 13 (after the twelve preamble lines and one blank line) with the
comment line carrying the literal text `"#t = "` (wave1d.cpp line 140),
which is not the claimed exact form `"# t = "` (written only by line 165
for the periodic blocks). -/
theorem snapshot_header_form_counterexample :
    preambleLines.length = 12 ∧
    (simOutput ⟨1, 1, 0, 4, 1, 1, 1, "o"⟩)[12]? = some OutLine.blankLine ∧
    (simOutput ⟨1, 1, 0, 4, 1, 1, 1, "o"⟩)[13]? =
      some (OutLine.timeHeader "#t = " 0) ∧
    "#t = " ≠ "# t = " := by
  refine ⟨by decide, by with_unfolding_all decide,
    by with_unfolding_all decide, by decide⟩

/-- C9 amended: the output is a preamble of twelve `#`-prefixed parameter
lines; then one blank line and the initial snapshot block whose comment line
has the form `#t = <time>` (no space after `#`); after every `nper`-th step
a block preceded by two blank lines whose comment line has the exact form
`# t = <time>`; every block contains exactly `ngrid` data lines, so the file
holds `nsteps/nper + 1` snapshot blocks and `(nsteps/nper + 1) * ngrid` data
lines (exactly `nsteps/nper + 1` blocks when `nper` divides `nsteps`). -/
theorem snapshot_structure_amended (p : Parameters)
    (hv : correctinput p = true) (h1 : 1 ≤ (deriveParameters p).nper) :
    (simOutput p).take 12 = preambleLines ∧
    preambleLabels.all (fun s => s.startsWith "#") = true ∧
    (simOutput p)[12]? = some OutLine.blankLine ∧
    (simOutput p)[13]? = some (OutLine.timeHeader "#t = " 0) ∧
    headerCount (simOutput p) =
      (deriveParameters p).nsteps / (deriveParameters p).nper + 1 ∧
    dataCount (simOutput p) =
      ((deriveParameters p).nsteps / (deriveParameters p).nper + 1) *
        (deriveParameters p).ngrid ∧
    headerMarksOK (loopOutput p (deriveParameters p)
      (initializeX p (deriveParameters p).ngrid)
      (deriveParameters p).nsteps 0 (initState p)) = true := by
  have hd := simOutput_decomp p
  have h12 : preambleLines.length = 12 := by decide
  refine ⟨?_, by with_unfolding_all decide, ?_, ?_, ?_, ?_,
    headerMarksOK_loopOutput p _ _ _ 0 (initState p)⟩
  · rw [hd, List.append_assoc, List.take_left' h12]
  · rw [hd, List.append_assoc,
      List.getElem?_append_right (by rw [h12] : preambleLines.length ≤ 12)]
    rw [h12]
    rfl
  · rw [hd, List.append_assoc,
      List.getElem?_append_right (by rw [h12]; omega : preambleLines.length ≤ 13)]
    rw [h12]
    show (OutLine.blankLine :: (snapshotBlock _ _ _ _ _ ++ _))[1]? = _
    rw [List.getElem?_cons_succ]
    rw [List.getElem?_append_left]
    · unfold snapshotBlock
      exact List.getElem?_cons_zero
    · rw [length_snapshotBlock]
      omega
  · rw [hd, headerCount_append, headerCount_append, headerCount_cons_blank,
      headerCount_snapshotBlock, headerCount_loopOutput,
      cadenceCount_eq_div]
    have hpre : headerCount preambleLines = 0 := rfl
    rw [hpre]
    simp only [Nat.zero_add, Nat.zero_div, Nat.sub_zero]
    omega
  · rw [hd, dataCount_append, dataCount_append, dataCount_cons_blank,
      dataCount_snapshotBlock, dataCount_loopOutput, cadenceCount_eq_div]
    have hpre : dataCount preambleLines = 0 := rfl
    rw [hpre]
    simp only [Nat.zero_add, Nat.zero_div, Nat.sub_zero]
    ring

/-- Concrete instance of the amended C9: for `c=1, tau=1, x1=0, x2=4,
runtime=1, dx=1, outtime=1` (`ngrid=4`, `nsteps=2`, `nper=2`), the output
holds the twelve-line preamble, the blank line and `#t = 0` header of the
initial block, `2/2 + 1 = 2` snapshot blocks, `2 * 4 = 8` data lines, and
only `"# t = "` headers in the loop output. -/
theorem snapshot_structure_amended_witness :
    correctinput ⟨1, 1, 0, 4, 1, 1, 1, "o"⟩ = true ∧
    1 ≤ (deriveParameters ⟨1, 1, 0, 4, 1, 1, 1, "o"⟩).nper ∧
    ((simOutput ⟨1, 1, 0, 4, 1, 1, 1, "o"⟩).take 12 = preambleLines ∧
      preambleLabels.all (fun s => s.startsWith "#") = true ∧
      (simOutput ⟨1, 1, 0, 4, 1, 1, 1, "o"⟩)[12]? = some OutLine.blankLine ∧
      (simOutput ⟨1, 1, 0, 4, 1, 1, 1, "o"⟩)[13]? =
        some (OutLine.timeHeader "#t = " 0) ∧
      headerCount (simOutput ⟨1, 1, 0, 4, 1, 1, 1, "o"⟩) =
        (deriveParameters ⟨1, 1, 0, 4, 1, 1, 1, "o"⟩).nsteps /
          (deriveParameters ⟨1, 1, 0, 4, 1, 1, 1, "o"⟩).nper + 1 ∧
      dataCount (simOutput ⟨1, 1, 0, 4, 1, 1, 1, "o"⟩) =
        ((deriveParameters ⟨1, 1, 0, 4, 1, 1, 1, "o"⟩).nsteps /
          (deriveParameters ⟨1, 1, 0, 4, 1, 1, 1, "o"⟩).nper + 1) *
          (deriveParameters ⟨1, 1, 0, 4, 1, 1, 1, "o"⟩).ngrid ∧
      headerMarksOK (loopOutput ⟨1, 1, 0, 4, 1, 1, 1, "o"⟩
        (deriveParameters ⟨1, 1, 0, 4, 1, 1, 1, "o"⟩)
        (initializeX ⟨1, 1, 0, 4, 1, 1, 1, "o"⟩
          (deriveParameters ⟨1, 1, 0, 4, 1, 1, 1, "o"⟩).ngrid)
        (deriveParameters ⟨1, 1, 0, 4, 1, 1, 1, "o"⟩).nsteps 0
        (initState ⟨1, 1, 0, 4, 1, 1, 1, "o"⟩)) = true) :=
  ⟨by with_unfolding_all decide, by with_unfolding_all decide,
    snapshot_structure_amended ⟨1, 1, 0, 4, 1, 1, 1, "o"⟩
      (by with_unfolding_all decide) (by with_unfolding_all decide)⟩
